import Mathlib

/-!
Verification development for the go-notify dispatch core.

The definitions below are a shallow embedding of the repository's code:
- `Message` and its transitions follow internal/messages/model.go;
- `updateMessageStatus` / `getPendingMessages` follow the SQL queries backing
  the message repository (UpdateMessageStatus / GetPendingMessages);
- `sendMessage`, `processAll` and `MessageService.fetchAndSendPending` follow
  internal/messages/service.go, with the external collaborators (store writes,
  webhook sender, cache, batch-context cancellation, wall clock) supplied by an
  `Env` of oracles and with the worker pool sequentialised: each message is
  processed by exactly one worker and workers touch disjoint store rows, so the
  final store contents and the set of emitted external calls are independent of
  the interleaving;
- the scheduler state machine (`SchedState`, `SchedState.start`,
  `SchedState.stop`, `executeTick`, `SchedStep`) follows the scheduler package
  (Start/Stop/loop/execute), with `wg.Wait` in Stop folded into the `stop`
  step: the in-flight batch completes, its deferred flag reset runs, and the
  loop goroutine exits before Stop returns;
- `applySchedulerDefaults` / `loadConfig` follow the validation tail of the
  config package's LoadConfig.
-/

namespace GoNotify

/-- Message entity (internal/messages/model.go). Timestamps are abstract
naturals; `time.Now()` is supplied by the environment as `Env.now`. -/
structure Message where
  id : String
  content : String
  recipient : String
  status : String
  externalMessageID : Option String
  lastFailureReason : Option String
  createdAt : Nat
  updatedAt : Nat
deriving DecidableEq

/-- model.go `MarkAsSending`: status becomes "sending". -/
def Message.markAsSending (m : Message) (now : Nat) : Message :=
  { m with status := "sending", updatedAt := now }

/-- model.go `MarkAsSent`: status "sent", external id recorded, failure reason
cleared. -/
def Message.markAsSent (m : Message) (externalID : String) (now : Nat) : Message :=
  { m with status := "sent", externalMessageID := some externalID,
           lastFailureReason := none, updatedAt := now }

/-- model.go `MarkAsFailed`: status "failed", reason recorded. -/
def Message.markAsFailed (m : Message) (reason : String) (now : Nat) : Message :=
  { m with status := "failed", lastFailureReason := some reason, updatedAt := now }

/-- Effect of the UpdateMessageStatus SQL on one stored row: rows whose id
matches the written message take its status, external id, failure reason and
timestamp; other rows are untouched. -/
def updateRow (msg row : Message) : Message :=
  if row.id = msg.id then
    { row with status := msg.status, externalMessageID := msg.externalMessageID,
               lastFailureReason := msg.lastFailureReason, updatedAt := msg.updatedAt }
  else row

/-- The message store is the list of rows in creation order (the SQL table,
ordered by created_at). `UpdateMessageStatus` is a row-wise update. -/
def updateMessageStatus (store : List Message) (msg : Message) : List Message :=
  store.map (updateRow msg)

/-- GetPendingMessages SQL: rows with status 'pending', oldest first (list
order is creation order), limited. -/
def getPendingMessages (store : List Message) (limit : Nat) : List Message :=
  (store.filter (fun m => m.status == "pending")).take limit

/-- Observable calls made to the external collaborators during a batch. -/
inductive Event where
  | updateStatus (m : Message) (ok : Bool)
  | webhookSend (recipient content : String) (ok : Bool)
  | cacheSent (messageID externalID : String) (ok : Bool)
deriving DecidableEq

/-- True exactly on Delivery Cache invocations. -/
def Event.isCacheSent : Event → Bool
  | .cacheSent _ _ _ => true
  | _ => false

/-- Oracles for the external collaborators and the runtime environment of one
batch: outcome of the pending fetch, outcome of each status write, the webhook
sender, the cache, the first message index at which the batch context is
observed cancelled (none = never), and the wall clock. -/
structure Env where
  fetchErr : Option String
  updateErr : Message → Option String
  webhook : String → String → Except String String
  cacheErr : String → String → Option String
  cancelAt : Option Nat
  now : Nat

/-- Whether the worker's `ctx.Err() != nil` check fires before processing the
message at position `idx` of the batch (cancellation is monotone). -/
def ctxCancelled (env : Env) (idx : Nat) : Bool :=
  match env.cancelAt with
  | none => false
  | some j => decide (j ≤ idx)

/-- service.go `sendMessage`: claim the row as 'sending' (abandon on write
failure), invoke the webhook under the per-job timeout, then persist 'sent'
(and best-effort cache) or 'failed'. Returns the updated store, the external
calls made, and the function's error result. -/
def sendMessage (env : Env) (store : List Message) (msg : Message) :
    List Message × List Event × Except String Unit :=
  let m1 := msg.markAsSending env.now
  match env.updateErr m1 with
  | some e =>
    (store, [Event.updateStatus m1 false],
     Except.error ("failed to update status to sending for message " ++ msg.id ++ ": " ++ e))
  | none =>
    let store1 := updateMessageStatus store m1
    match env.webhook msg.recipient msg.content with
    | Except.error werr =>
      let m2 := m1.markAsFailed ("webhook send failed: " ++ werr) env.now
      match env.updateErr m2 with
      | some _ =>
        (store1,
         [Event.updateStatus m1 true, Event.webhookSend msg.recipient msg.content false,
          Event.updateStatus m2 false],
         Except.error ("failed to send message " ++ msg.id ++ ": " ++ werr))
      | none =>
        (updateMessageStatus store1 m2,
         [Event.updateStatus m1 true, Event.webhookSend msg.recipient msg.content false,
          Event.updateStatus m2 true],
         Except.error ("failed to send message " ++ msg.id ++ ": " ++ werr))
    | Except.ok externalMessageID =>
      let m2 := m1.markAsSent externalMessageID env.now
      match env.updateErr m2 with
      | some e =>
        (store1,
         [Event.updateStatus m1 true, Event.webhookSend msg.recipient msg.content true,
          Event.updateStatus m2 false],
         Except.error ("failed to mark message " ++ msg.id ++ " as sent in DB: " ++ e))
      | none =>
        (updateMessageStatus store1 m2,
         [Event.updateStatus m1 true, Event.webhookSend msg.recipient msg.content true,
          Event.updateStatus m2 true,
          Event.cacheSent msg.id externalMessageID
            ((env.cacheErr msg.id externalMessageID).isNone)],
         Except.ok ())

/-- The worker pool draining the jobs channel (service.go `worker`),
sequentialised: messages are handed out in queue order; before starting a
message the worker checks the batch context and stops if it is cancelled. -/
def processAll (env : Env) (store : List Message) (msgs : List Message) (idx : Nat) :
    List Message × List Event :=
  match msgs with
  | [] => (store, [])
  | msg :: rest =>
    if ctxCancelled env idx then (store, [])
    else
      let step := sendMessage env store msg
      let next := processAll env step.1 rest (idx + 1)
      (next.1, step.2.1 ++ next.2)

/-- The fields of MessageService that the dispatch path reads
(service.go). The per-job timeout only shapes the webhook oracle's outcome. -/
structure MessageService where
  workerCount : Nat
  jobTimeout : Nat

/-- Observable outcome of one `FetchAndSendPending` call: final store, external
calls, number of worker goroutines spawned, and the returned error. -/
structure BatchResult where
  store : List Message
  events : List Event
  workersSpawned : Nat
  ret : Except String Unit

/-- service.go `FetchAndSendPending`: fetch pending rows (abort on fetch
error), return nil on an empty batch, otherwise spawn exactly `workerCount`
workers over a jobs channel, wait for them, and return nil. With zero workers
the channel is never drained and the batch completes with no effects. -/
def MessageService.fetchAndSendPending (svc : MessageService) (env : Env)
    (store : List Message) (limit : Nat) : BatchResult :=
  match env.fetchErr with
  | some e =>
    { store := store, events := [], workersSpawned := 0,
      ret := Except.error ("failed to get pending messages: " ++ e) }
  | none =>
    let pendingMsgs := getPendingMessages store limit
    if pendingMsgs.length = 0 then
      { store := store, events := [], workersSpawned := 0, ret := Except.ok () }
    else
      let outcome :=
        if svc.workerCount = 0 then (store, ([] : List Event))
        else processAll env store pendingMsgs 0
      { store := outcome.1, events := outcome.2, workersSpawned := svc.workerCount,
        ret := Except.ok () }

/-- Control errors returned by the scheduler (scheduler package). -/
inductive SchedulerErr where
  | alreadyRunning
  | notRunning
deriving DecidableEq

/-- Where the single scheduler loop goroutine stands. -/
inductive LoopState where
  | exited
  | selecting
  | executing
deriving DecidableEq

/-- Observable state of MessageDispatchSchedulerImpl: the two atomic flags,
whether the current stop channel has been closed, the stop channel generation
(it is remade on every successful Start), and the loop goroutine status. -/
structure SchedState where
  isRunning : Bool
  isProcessing : Bool
  stopClosed : Bool
  stopGen : Nat
  loop : LoopState
deriving DecidableEq

/-- State after NewMessageDispatchSchedulerImpl: flags false, loop not
spawned. -/
def newSched : SchedState :=
  { isRunning := false, isProcessing := false, stopClosed := false,
    stopGen := 0, loop := LoopState.exited }

/-- Scheduler `Start`: CAS `isRunning` false to true; on failure return
AlreadyRunning with the state untouched; on success remake the stop channel
and then spawn the loop goroutine, returning nil without blocking. -/
def SchedState.start (s : SchedState) : SchedState × Except SchedulerErr Unit :=
  if s.isRunning then (s, Except.error SchedulerErr.alreadyRunning)
  else
    ({ s with isRunning := true, stopClosed := false, stopGen := s.stopGen + 1,
              loop := LoopState.selecting },
     Except.ok ())

/-- Scheduler `Stop`: CAS `isRunning` true to false; on failure return
NotRunning with the state untouched. On success close the stop channel and
block in `wg.Wait` until the loop goroutine exits: any in-flight batch runs to
completion, its deferred `isProcessing.Store(false)` fires, the loop observes
the closed channel and returns, and only then does Stop return nil. -/
def SchedState.stop (s : SchedState) : SchedState × Except SchedulerErr Unit :=
  if s.isRunning then
    ({ s with isRunning := false, stopClosed := true, isProcessing := false,
              loop := LoopState.exited },
     Except.ok ())
  else (s, Except.error SchedulerErr.notRunning)

/-- Observable outcome of one `execute` call (scheduler package). -/
structure ExecOutcome where
  engineCalls : Nat
  processingAfter : Bool
  tickDropped : Bool
deriving DecidableEq

/-- Scheduler `execute`: CAS `isProcessing` false to true; if the flag is
already set, return without calling the Dispatch Engine (the tick is dropped,
nothing is queued); otherwise call the engine exactly once and restore the
flag to false (deferred) when the call returns. -/
def executeTick (isProcessingBefore : Bool) : ExecOutcome :=
  if isProcessingBefore then
    { engineCalls := 0, processingAfter := isProcessingBefore, tickDropped := true }
  else
    { engineCalls := 1, processingAfter := false, tickDropped := false }

/-- Atomic transitions of the scheduler: the two API calls and the loop
goroutine's own moves (a tick starting a batch, a tick dropped because the
flag is set, a batch completing). -/
inductive SchedStep : SchedState → SchedState → Prop where
  | startCall (s : SchedState) : SchedStep s (SchedState.start s).1
  | stopCall (s : SchedState) : SchedStep s (SchedState.stop s).1
  | batchStart (s : SchedState) (hsel : s.loop = LoopState.selecting)
      (hproc : s.isProcessing = false) :
      SchedStep s { s with isProcessing := true, loop := LoopState.executing }
  | tickDrop (s : SchedState) (hsel : s.loop = LoopState.selecting)
      (hproc : s.isProcessing = true) : SchedStep s s
  | batchEnd (s : SchedState) (hexec : s.loop = LoopState.executing) :
      SchedStep s { s with isProcessing := false, loop := LoopState.selecting }

/-- States reachable from a freshly constructed scheduler. -/
inductive SchedReach : SchedState → Prop where
  | base : SchedReach newSched
  | next {s t : SchedState} : SchedReach s → SchedStep s t → SchedReach t

/-- Invariant tying the flags to the loop goroutine: the processing flag is
set exactly while a batch executes, and a stopped scheduler has no live loop
and no batch in flight. -/
def SchedInv (s : SchedState) : Prop :=
  (s.isProcessing = true ↔ s.loop = LoopState.executing) ∧
  (s.isRunning = false → s.loop = LoopState.exited ∧ s.isProcessing = false) ∧
  (s.loop ≠ LoopState.exited → s.isRunning = true)

/-- Nanoseconds in a second and in a minute (Go time.Duration units). -/
def secondNs : Int := 1000000000

/-- Nanoseconds in a minute. -/
def minuteNs : Int := 60 * secondNs

/-- SchedulerConfig fields (config package); durations in nanoseconds. -/
structure SchedulerConfig where
  messageRate : Int
  runsEvery : Int
  gracePeriod : Int
  jobTimeout : Int
deriving DecidableEq

/-- The parts of AppConfig that LoadConfig validates. -/
structure AppConfig where
  databaseConnectionString : String
  webhookURL : String
  scheduler : SchedulerConfig
deriving DecidableEq

/-- The defaulting tail of LoadConfig: non-positive messageRate becomes 2,
non-positive runsEvery becomes 2 minutes, and a gracePeriod that is
non-positive or at least runsEvery becomes a flat 30 seconds. -/
def applySchedulerDefaults (c : SchedulerConfig) : SchedulerConfig :=
  let c1 := if c.messageRate ≤ 0 then { c with messageRate := 2 } else c
  let c2 := if c1.runsEvery ≤ 0 then { c1 with runsEvery := 2 * minuteNs } else c1
  if c2.gracePeriod ≤ 0 ∨ c2.runsEvery ≤ c2.gracePeriod then
    { c2 with gracePeriod := 30 * secondNs }
  else c2

/-- LoadConfig after unmarshalling: reject a missing database connection
string or webhook URL, then default the scheduler settings defensively. -/
def loadConfig (cfg : AppConfig) : Except String AppConfig :=
  if cfg.databaseConnectionString = "" then
    Except.error "database connection string is not configured"
  else if cfg.webhookURL = "" then
    Except.error "webhook URL is not configured"
  else
    Except.ok { cfg with scheduler := applySchedulerDefaults cfg.scheduler }

/-! ## Helper lemmas about the store -/

theorem updateRow_id (msg row : Message) : (updateRow msg row).id = row.id := by
  unfold updateRow
  split <;> rfl

theorem updateRow_of_ne {msg row : Message} (h : row.id ≠ msg.id) :
    updateRow msg row = row := by
  unfold updateRow
  rw [if_neg h]

theorem updateRow_of_eq {msg row : Message} (h : row.id = msg.id) :
    updateRow msg row =
      { row with status := msg.status, externalMessageID := msg.externalMessageID,
                 lastFailureReason := msg.lastFailureReason, updatedAt := msg.updatedAt } := by
  unfold updateRow
  rw [if_pos h]

theorem updateMessageStatus_ids (msg : Message) :
    ∀ store : List Message,
      (updateMessageStatus store msg).map (fun m => m.id) = store.map (fun m => m.id)
  | [] => rfl
  | a :: t => by
      simp only [updateMessageStatus, List.map_cons, updateRow_id]
      exact congrArg (List.cons a.id) (updateMessageStatus_ids msg t)

theorem mem_updateMessageStatus {x msg : Message} {store : List Message}
    (h : x ∈ updateMessageStatus store msg) : ∃ y ∈ store, x = updateRow msg y := by
  rcases List.mem_map.mp h with ⟨y, hy, hxy⟩
  exact ⟨y, hy, hxy.symm⟩

/-! ## Reduction lemmas for `sendMessage` -/

theorem sendMessage_claim_fail (env : Env) (store : List Message) (msg : Message)
    {e : String} (hupd : env.updateErr (msg.markAsSending env.now) = some e) :
    sendMessage env store msg =
      (store, [Event.updateStatus (msg.markAsSending env.now) false],
       Except.error ("failed to update status to sending for message " ++ msg.id ++ ": " ++ e)) := by
  unfold sendMessage
  simp only [hupd]

theorem sendMessage_ok_eq (env : Env) (store : List Message) (msg : Message)
    (hupd : ∀ m, env.updateErr m = none) {ext : String}
    (hw : env.webhook msg.recipient msg.content = Except.ok ext) :
    sendMessage env store msg =
      (updateMessageStatus (updateMessageStatus store (msg.markAsSending env.now))
         ((msg.markAsSending env.now).markAsSent ext env.now),
       [Event.updateStatus (msg.markAsSending env.now) true,
        Event.webhookSend msg.recipient msg.content true,
        Event.updateStatus ((msg.markAsSending env.now).markAsSent ext env.now) true,
        Event.cacheSent msg.id ext ((env.cacheErr msg.id ext).isNone)],
       Except.ok ()) := by
  unfold sendMessage
  simp only [hupd, hw]

theorem sendMessage_err_eq (env : Env) (store : List Message) (msg : Message)
    (hupd : ∀ m, env.updateErr m = none) {werr : String}
    (hw : env.webhook msg.recipient msg.content = Except.error werr) :
    sendMessage env store msg =
      (updateMessageStatus (updateMessageStatus store (msg.markAsSending env.now))
         ((msg.markAsSending env.now).markAsFailed ("webhook send failed: " ++ werr) env.now),
       [Event.updateStatus (msg.markAsSending env.now) true,
        Event.webhookSend msg.recipient msg.content false,
        Event.updateStatus
          ((msg.markAsSending env.now).markAsFailed ("webhook send failed: " ++ werr) env.now)
          true],
       Except.error ("failed to send message " ++ msg.id ++ ": " ++ werr)) := by
  unfold sendMessage
  simp only [hupd, hw]

theorem sendMessage_ids (env : Env) (store : List Message) (msg : Message) :
    ((sendMessage env store msg).1).map (fun m => m.id) = store.map (fun m => m.id) := by
  unfold sendMessage
  cases h1 : env.updateErr (msg.markAsSending env.now) with
  | some e => simp [h1]
  | none =>
      cases h2 : env.webhook msg.recipient msg.content with
      | error werr =>
          cases h3 : env.updateErr
              ((msg.markAsSending env.now).markAsFailed ("webhook send failed: " ++ werr) env.now) with
          | some e => simp [h1, h3, updateMessageStatus_ids]
          | none => simp [h1, h3, updateMessageStatus_ids]
      | ok ext =>
          cases h3 : env.updateErr ((msg.markAsSending env.now).markAsSent ext env.now) with
          | some e => simp [h1, h3, updateMessageStatus_ids]
          | none => simp [h1, h3, updateMessageStatus_ids]

/-- Rows after a nominal successful send: the sent message's rows carry the
terminal 'sent' record and every other row is untouched. -/
theorem sendMessage_ok_rows (env : Env) (store : List Message) (msg : Message)
    (hupd : ∀ m, env.updateErr m = none) {ext : String}
    (hw : env.webhook msg.recipient msg.content = Except.ok ext) :
    ∀ x ∈ (sendMessage env store msg).1,
      (x.id = msg.id →
        x.status = "sent" ∧ x.externalMessageID = some ext ∧ x.lastFailureReason = none) ∧
      (x.id ≠ msg.id → x ∈ store) := by
  intro x hx
  rw [sendMessage_ok_eq env store msg hupd hw] at hx
  rcases mem_updateMessageStatus hx with ⟨y, hy, hxy⟩
  rcases mem_updateMessageStatus hy with ⟨z, hz, hyz⟩
  have hm2id : ((msg.markAsSending env.now).markAsSent ext env.now).id = msg.id := rfl
  have hm1id : (msg.markAsSending env.now).id = msg.id := rfl
  have hxid : x.id = z.id := by
    rw [hxy, updateRow_id, hyz, updateRow_id]
  constructor
  · intro hid
    have hyid : y.id = ((msg.markAsSending env.now).markAsSent ext env.now).id := by
      rw [hyz, updateRow_id, hm2id, ← hxid, hid]
    rw [hxy, updateRow_of_eq hyid]
    exact ⟨rfl, rfl, rfl⟩
  · intro hid
    have hz1 : z.id ≠ (msg.markAsSending env.now).id := by
      rw [hm1id, ← hxid]; exact hid
    have hy1 : y = z := by rw [hyz, updateRow_of_ne hz1]
    have hy2 : y.id ≠ ((msg.markAsSending env.now).markAsSent ext env.now).id := by
      rw [hy1, hm2id, ← hxid]; exact hid
    rw [hxy, updateRow_of_ne hy2, hy1]
    exact hz

/-- Rows after a nominal failed send: the message's rows carry the 'failed'
record with the wrapped webhook error, every other row is untouched. -/
theorem sendMessage_err_rows (env : Env) (store : List Message) (msg : Message)
    (hupd : ∀ m, env.updateErr m = none) {werr : String}
    (hw : env.webhook msg.recipient msg.content = Except.error werr) :
    ∀ x ∈ (sendMessage env store msg).1,
      (x.id = msg.id →
        x.status = "failed" ∧ x.lastFailureReason = some ("webhook send failed: " ++ werr)) ∧
      (x.id ≠ msg.id → x ∈ store) := by
  intro x hx
  rw [sendMessage_err_eq env store msg hupd hw] at hx
  rcases mem_updateMessageStatus hx with ⟨y, hy, hxy⟩
  rcases mem_updateMessageStatus hy with ⟨z, hz, hyz⟩
  have hm2id : ((msg.markAsSending env.now).markAsFailed
      ("webhook send failed: " ++ werr) env.now).id = msg.id := rfl
  have hm1id : (msg.markAsSending env.now).id = msg.id := rfl
  have hxid : x.id = z.id := by
    rw [hxy, updateRow_id, hyz, updateRow_id]
  constructor
  · intro hid
    have hyid : y.id = ((msg.markAsSending env.now).markAsFailed
        ("webhook send failed: " ++ werr) env.now).id := by
      rw [hyz, updateRow_id, hm2id, ← hxid, hid]
    rw [hxy, updateRow_of_eq hyid]
    exact ⟨rfl, rfl⟩
  · intro hid
    have hz1 : z.id ≠ (msg.markAsSending env.now).id := by
      rw [hm1id, ← hxid]; exact hid
    have hy1 : y = z := by rw [hyz, updateRow_of_ne hz1]
    have hy2 : y.id ≠ ((msg.markAsSending env.now).markAsFailed
        ("webhook send failed: " ++ werr) env.now).id := by
      rw [hy1, hm2id, ← hxid]; exact hid
    rw [hxy, updateRow_of_ne hy2, hy1]
    exact hz

/-! ## Batch-level lemmas -/

theorem ctxCancelled_none {env : Env} (h : env.cancelAt = none) (idx : Nat) :
    ctxCancelled env idx = false := by
  unfold ctxCancelled
  rw [h]

theorem processAll_ids (env : Env) :
    ∀ (msgs store : List Message) (idx : Nat),
      ((processAll env store msgs idx).1).map (fun m => m.id) = store.map (fun m => m.id)
  | [], store, idx => rfl
  | msg :: rest, store, idx => by
      cases hc : ctxCancelled env idx with
      | true => simp [processAll, hc]
      | false =>
          simp only [processAll, hc, Bool.false_eq_true, if_false]
          rw [processAll_ids env rest (sendMessage env store msg).1 (idx + 1),
              sendMessage_ids]

/-- Invariant for an all-success batch: every row whose id belongs to the
batch ends with the terminal 'sent' record; every other row is untouched. -/
theorem processAll_sent (env : Env) (hupd : ∀ m, env.updateErr m = none)
    (hcancel : env.cancelAt = none)
    (hsend : ∀ r c, ∃ ext, env.webhook r c = Except.ok ext) :
    ∀ (msgs store : List Message) (idx : Nat),
      ∀ x ∈ (processAll env store msgs idx).1,
        (x.id ∈ msgs.map (fun m => m.id) →
          x.status = "sent" ∧ x.externalMessageID.isSome = true ∧ x.lastFailureReason = none) ∧
        (x.id ∉ msgs.map (fun m => m.id) → x ∈ store)
  | [], store, idx => by
      intro x hx
      refine ⟨fun hmem => absurd hmem (by simp), fun _ => ?_⟩
      simpa [processAll] using hx
  | msg :: rest, store, idx => by
      intro x hx
      rw [processAll, if_neg (by simp [ctxCancelled_none hcancel])] at hx
      obtain ⟨ext, hw⟩ := hsend msg.recipient msg.content
      have ih := processAll_sent env hupd hcancel hsend rest
        (sendMessage env store msg).1 (idx + 1) x hx
      have hstep := sendMessage_ok_rows env store msg hupd hw
      constructor
      · intro hmem
        by_cases hr : x.id ∈ rest.map (fun m => m.id)
        · exact ih.1 hr
        · have hxin : x ∈ (sendMessage env store msg).1 := ih.2 hr
          have hid : x.id = msg.id := by
            rw [List.map_cons] at hmem
            rcases List.mem_cons.mp hmem with h | h
            · exact h
            · exact absurd h hr
          rcases (hstep x hxin).1 hid with ⟨h1, h2, h3⟩
          exact ⟨h1, by rw [h2]; rfl, h3⟩
      · intro hmem
        have hne : x.id ≠ msg.id := fun h => hmem (by simp [h])
        have hr : x.id ∉ rest.map (fun m => m.id) := fun h => hmem (by simp [h])
        exact (hstep x (ih.2 hr)).2 hne

/-- Invariant for an all-failure batch with distinct ids: every row whose id
belongs to the batch ends 'failed' carrying the wrapped webhook error of its
own message; every other row is untouched. -/
theorem processAll_failed (env : Env) (hupd : ∀ m, env.updateErr m = none)
    (hcancel : env.cancelAt = none)
    (hsend : ∀ r c, ∃ e, env.webhook r c = Except.error e) :
    ∀ (msgs store : List Message) (idx : Nat),
      (msgs.map (fun m => m.id)).Nodup →
      ∀ x ∈ (processAll env store msgs idx).1,
        (∀ m ∈ msgs, x.id = m.id →
          x.status = "failed" ∧
          ∀ e, env.webhook m.recipient m.content = Except.error e →
            x.lastFailureReason = some ("webhook send failed: " ++ e)) ∧
        (x.id ∉ msgs.map (fun m => m.id) → x ∈ store)
  | [], store, idx => by
      intro _ x hx
      refine ⟨fun m hm => absurd hm (by simp), fun _ => ?_⟩
      simpa [processAll] using hx
  | msg :: rest, store, idx => by
      intro hnodup x hx
      rw [processAll, if_neg (by simp [ctxCancelled_none hcancel])] at hx
      obtain ⟨e, hw⟩ := hsend msg.recipient msg.content
      rw [List.map_cons] at hnodup
      have hnd := List.nodup_cons.mp hnodup
      have ih := processAll_failed env hupd hcancel hsend rest
        (sendMessage env store msg).1 (idx + 1) hnd.2 x hx
      have hstep := sendMessage_err_rows env store msg hupd hw
      constructor
      · intro m hm hid
        rcases List.mem_cons.mp hm with hcase | hcase
        · have hidm : x.id = msg.id := by rw [hid, hcase]
          have hr : x.id ∉ rest.map (fun a => a.id) := by
            rw [hidm]; exact hnd.1
          have hxin : x ∈ (sendMessage env store msg).1 := ih.2 hr
          rcases (hstep x hxin).1 hidm with ⟨h1, h2⟩
          refine ⟨h1, fun e2 he2 => ?_⟩
          rw [hcase, hw] at he2
          have he : e = e2 := by injection he2
          rw [h2, he]
        · exact ih.1 m hcase hid
      · intro hmem
        have hne : x.id ≠ msg.id := fun h => hmem (by simp [h])
        have hr : x.id ∉ rest.map (fun m => m.id) := fun h => hmem (by simp [h])
        exact (hstep x (ih.2 hr)).2 hne

/-- A failing webhook send never reaches the Delivery Cache. -/
theorem sendMessage_noCache (env : Env) (store : List Message) (msg : Message)
    {e : String} (hw : env.webhook msg.recipient msg.content = Except.error e) :
    ∀ ev ∈ (sendMessage env store msg).2.1, ev.isCacheSent = false := by
  intro ev hev
  unfold sendMessage at hev
  cases h1 : env.updateErr (msg.markAsSending env.now) with
  | some e1 =>
      simp only [h1] at hev
      rcases (by simpa using hev : ev = _) with rfl
      rfl
  | none =>
      simp only [h1, hw] at hev
      cases h3 : env.updateErr
          ((msg.markAsSending env.now).markAsFailed ("webhook send failed: " ++ e) env.now) with
      | some e3 =>
          simp only [h3] at hev
          rcases (by simpa using hev : ev = _ ∨ ev = _ ∨ ev = _) with rfl | rfl | rfl <;> rfl
      | none =>
          simp only [h3] at hev
          rcases (by simpa using hev : ev = _ ∨ ev = _ ∨ ev = _) with rfl | rfl | rfl <;> rfl

/-- An all-failure batch never invokes the Delivery Cache. -/
theorem processAll_noCache (env : Env) (hcancel : env.cancelAt = none)
    (hsend : ∀ r c, ∃ e, env.webhook r c = Except.error e) :
    ∀ (msgs store : List Message) (idx : Nat),
      ∀ ev ∈ (processAll env store msgs idx).2, ev.isCacheSent = false
  | [], store, idx => by
      intro ev hev
      simp [processAll] at hev
  | msg :: rest, store, idx => by
      intro ev hev
      rw [processAll, if_neg (by simp [ctxCancelled_none hcancel])] at hev
      rcases List.mem_append.mp hev with h | h
      · obtain ⟨e, hw⟩ := hsend msg.recipient msg.content
        exact sendMessage_noCache env store msg hw ev h
      · exact processAll_noCache env hcancel hsend rest
          (sendMessage env store msg).1 (idx + 1) ev h

/-! ## Scheduler invariant -/

theorem schedStep_inv {s t : SchedState} (hstep : SchedStep s t) (ih : SchedInv s) :
    SchedInv t := by
  cases hstep with
  | startCall =>
      by_cases hr : s.isRunning = true
      · simpa [SchedState.start, hr] using ih
      · have hf : s.isRunning = false := by simpa using hr
        obtain ⟨i1, i2, i3⟩ := ih
        obtain ⟨hl, hp⟩ := i2 hf
        refine ⟨?_, ?_, ?_⟩ <;> simp [SchedState.start, hf, hp, hl]
  | stopCall =>
      by_cases hr : s.isRunning = true
      · refine ⟨?_, ?_, ?_⟩ <;> simp [SchedState.stop, hr]
      · have hf : s.isRunning = false := by simpa using hr
        simpa [SchedState.stop, hf] using ih
  | batchStart hsel hproc =>
      have hrun : s.isRunning = true := ih.2.2 (by rw [hsel]; intro h; cases h)
      refine ⟨?_, ?_, ?_⟩ <;> simp [hrun]
  | tickDrop hsel hproc => exact ih
  | batchEnd hexec =>
      have hrun : s.isRunning = true := ih.2.2 (by rw [hexec]; intro h; cases h)
      refine ⟨?_, ?_, ?_⟩ <;> simp [hrun]

theorem schedInv_of_reach : ∀ s, SchedReach s → SchedInv s := by
  intro s h
  induction h with
  | base =>
      refine ⟨?_, ?_, ?_⟩ <;> simp [newSched, SchedInv]
  | next hr hstep ih => exact schedStep_inv hstep ih

/-! ## Config defaulting bounds -/

theorem applySchedulerDefaults_bounds (c : SchedulerConfig) :
    1 ≤ (applySchedulerDefaults c).messageRate ∧
    0 < (applySchedulerDefaults c).runsEvery ∧
    0 < (applySchedulerDefaults c).gracePeriod ∧
    (30 * secondNs < (applySchedulerDefaults c).runsEvery →
      (applySchedulerDefaults c).gracePeriod < (applySchedulerDefaults c).runsEvery) := by
  unfold applySchedulerDefaults
  simp only [secondNs, minuteNs]
  split <;> split <;> split <;> simp_all <;> omega

/-! ## Concrete fixtures for witnesses and counterexamples -/

/-- A single pending message. -/
def msgW : Message :=
  { id := "m1", content := "hello", recipient := "+15551112222", status := "pending",
    externalMessageID := none, lastFailureReason := none, createdAt := 0, updatedAt := 0 }

/-- A store holding one pending row. -/
def storeW : List Message := [msgW]

/-- Nominal environment whose webhook always succeeds. -/
def envOkW : Env :=
  { fetchErr := none, updateErr := fun _ => none,
    webhook := fun _ _ => Except.ok "ext-1", cacheErr := fun _ _ => none,
    cancelAt := none, now := 5 }

/-- Nominal environment whose webhook always fails. -/
def envFailW : Env :=
  { fetchErr := none, updateErr := fun _ => none,
    webhook := fun _ _ => Except.error "boom", cacheErr := fun _ _ => none,
    cancelAt := none, now := 5 }

/-- Environment in which every write of a 'sending' claim fails. -/
def envClaimFailW : Env :=
  { fetchErr := none,
    updateErr := fun m => if m.status = "sending" then some "db down" else none,
    webhook := fun _ _ => Except.ok "ext-1", cacheErr := fun _ _ => none,
    cancelAt := none, now := 5 }

/-- A service with two workers. -/
def svcW : MessageService := { workerCount := 2, jobTimeout := 10 }

/-- A service with three workers, more than the one fetched message. -/
def svcC1 : MessageService := { workerCount := 3, jobTimeout := 10 }

/-- A scheduler that has been started once. -/
def schedRunW : SchedState := (SchedState.start newSched).1

/-! ## Claims -/

/-- C1 counterexample: with 3 configured workers and a single fetched pending
message, FetchAndSendPending spawns 3 workers, not min(3, 1) = 1 as the claim
states. -/
theorem C1_counterexample :
    (MessageService.fetchAndSendPending svcC1 envOkW storeW 10).workersSpawned = 3 ∧
    (getPendingMessages storeW 10).length = 1 ∧
    (MessageService.fetchAndSendPending svcC1 envOkW storeW 10).workersSpawned ≠
      min svcC1.workerCount (getPendingMessages storeW 10).length := by
  refine ⟨?_, ?_, ?_⟩ <;> decide

/-- C1 (amended): for every batch in which at least one pending message is
fetched, FetchAndSendPending creates a worker pool of exactly the configured
workerCount workers, regardless of how many messages were fetched. -/
theorem C1_worker_pool_spawns_configured_count (svc : MessageService) (env : Env)
    (store : List Message) (limit : Nat) (hfetch : env.fetchErr = none)
    (hne : getPendingMessages store limit ≠ []) :
    (MessageService.fetchAndSendPending svc env store limit).workersSpawned =
      svc.workerCount := by
  have hlen : ¬ (getPendingMessages store limit).length = 0 := by
    simpa [List.length_eq_zero] using hne
  unfold MessageService.fetchAndSendPending
  simp only [hfetch]
  rw [if_neg hlen]

theorem C1_witness :
    (MessageService.fetchAndSendPending svcC1 envOkW storeW 10).workersSpawned =
      svcC1.workerCount :=
  C1_worker_pool_spawns_configured_count svcC1 envOkW storeW 10 rfl (by decide)

/-- C2: if the processing flag is already set when a tick fires, execute
returns without invoking the Dispatch Engine and the tick is dropped (nothing
is queued: the state is untouched); when the CAS succeeds the engine is
invoked exactly once and the flag is false again when the call returns; and in
every reachable scheduler state the processing flag is set exactly while the
single loop goroutine is executing a batch, so at most one batch is ever in
flight. -/
theorem C2_overlap_prevention :
    ((executeTick true).engineCalls = 0 ∧ (executeTick true).tickDropped = true ∧
      (executeTick true).processingAfter = true) ∧
    ((executeTick false).engineCalls = 1 ∧ (executeTick false).processingAfter = false) ∧
    (∀ s, SchedReach s → (s.isProcessing = true ↔ s.loop = LoopState.executing)) :=
  ⟨⟨rfl, rfl, rfl⟩, ⟨rfl, rfl⟩, fun s hs => (schedInv_of_reach s hs).1⟩

theorem C2_witness :
    (executeTick true).engineCalls = 0 ∧
    ((newSched.isProcessing = true) ↔ (newSched.loop = LoopState.executing)) :=
  ⟨C2_overlap_prevention.1.1, C2_overlap_prevention.2.2 newSched SchedReach.base⟩

/-- Configuration that LoadConfig accepts but whose defaulted grace period
(30s) is not below its valid 10s tick period. -/
def cfgC3 : AppConfig :=
  { databaseConnectionString := "postgres", webhookURL := "https://example",
    scheduler := { messageRate := 5, runsEvery := 10 * secondNs, gracePeriod := 0,
                   jobTimeout := 0 } }

/-- The output LoadConfig produces for `cfgC3`. -/
def cfgC3out : AppConfig :=
  { cfgC3 with scheduler := { messageRate := 5, runsEvery := 10 * secondNs,
                              gracePeriod := 30 * secondNs, jobTimeout := 0 } }

/-- C3 counterexample: LoadConfig accepts a config with runsEvery = 10s and
gracePeriod = 0, and the defaulted result has gracePeriod = 30s, violating
gracePeriod < runsEvery. -/
theorem C3_counterexample :
    loadConfig cfgC3 = Except.ok cfgC3out ∧
    ¬ (cfgC3out.scheduler.gracePeriod < cfgC3out.scheduler.runsEvery) := by
  refine ⟨rfl, by decide⟩

/-- C3 (amended): every configuration accepted by LoadConfig yields
messageRate >= 1, runsEvery > 0 and gracePeriod > 0; gracePeriod < runsEvery
additionally holds whenever the resulting runsEvery exceeds 30 seconds (the
fixed default), but an accepted runsEvery of at most 30s combined with an
invalid gracePeriod yields gracePeriod >= runsEvery. -/
theorem C3_config_defaults (cfg out : AppConfig) (h : loadConfig cfg = Except.ok out) :
    1 ≤ out.scheduler.messageRate ∧ 0 < out.scheduler.runsEvery ∧
    0 < out.scheduler.gracePeriod ∧
    (30 * secondNs < out.scheduler.runsEvery →
      out.scheduler.gracePeriod < out.scheduler.runsEvery) := by
  have hout : out.scheduler = applySchedulerDefaults cfg.scheduler := by
    unfold loadConfig at h
    split at h
    · exact absurd h (by simp)
    · split at h
      · exact absurd h (by simp)
      · have h2 := Except.ok.inj h
        rw [← h2]
  rw [hout]
  exact applySchedulerDefaults_bounds cfg.scheduler

/-- Config with every scheduler field invalid; all are defaulted. -/
def cfgC3good : AppConfig :=
  { databaseConnectionString := "postgres", webhookURL := "https://example",
    scheduler := { messageRate := 0, runsEvery := 0, gracePeriod := 0, jobTimeout := 0 } }

/-- LoadConfig's output for `cfgC3good`. -/
def cfgC3goodOut : AppConfig :=
  { cfgC3good with scheduler := applySchedulerDefaults cfgC3good.scheduler }

theorem C3_witness :
    1 ≤ cfgC3goodOut.scheduler.messageRate ∧ 0 < cfgC3goodOut.scheduler.runsEvery ∧
    0 < cfgC3goodOut.scheduler.gracePeriod ∧
    (30 * secondNs < cfgC3goodOut.scheduler.runsEvery →
      cfgC3goodOut.scheduler.gracePeriod < cfgC3goodOut.scheduler.runsEvery) :=
  C3_config_defaults cfgC3good cfgC3goodOut rfl

/-- C4: in a batch over a functioning store (all status writes succeed, the
batch deadline never fires, at least one worker) in which the Delivery Sender
succeeds for every message, after the batch completes the store holds the same
rows and every fetched pending message's row is 'sent' with a non-nil external
id and a nil failure reason. -/
theorem C4_all_sent (svc : MessageService) (env : Env) (store : List Message) (limit : Nat)
    (hworkers : 1 ≤ svc.workerCount) (hfetch : env.fetchErr = none)
    (hcancel : env.cancelAt = none) (hupd : ∀ m, env.updateErr m = none)
    (hsend : ∀ r c, ∃ ext, env.webhook r c = Except.ok ext) :
    ((MessageService.fetchAndSendPending svc env store limit).store).map (fun m => m.id) =
      store.map (fun m => m.id) ∧
    ∀ x ∈ (MessageService.fetchAndSendPending svc env store limit).store,
      x.id ∈ (getPendingMessages store limit).map (fun m => m.id) →
      x.status = "sent" ∧ x.externalMessageID.isSome = true ∧ x.lastFailureReason = none := by
  have hwc : ¬ svc.workerCount = 0 := by omega
  unfold MessageService.fetchAndSendPending
  simp only [hfetch]
  by_cases hlen : (getPendingMessages store limit).length = 0
  · rw [if_pos hlen]
    refine ⟨rfl, fun x hx hmem => ?_⟩
    rw [List.length_eq_zero.mp hlen] at hmem
    simp at hmem
  · rw [if_neg hlen, if_neg hwc]
    constructor
    · exact processAll_ids env (getPendingMessages store limit) store 0
    · intro x hx hmem
      exact (processAll_sent env hupd hcancel hsend
        (getPendingMessages store limit) store 0 x hx).1 hmem

theorem C4_witness :
    ((MessageService.fetchAndSendPending svcW envOkW storeW 10).store).map (fun m => m.id) =
      storeW.map (fun m => m.id) ∧
    ∀ x ∈ (MessageService.fetchAndSendPending svcW envOkW storeW 10).store,
      x.id ∈ (getPendingMessages storeW 10).map (fun m => m.id) →
      x.status = "sent" ∧ x.externalMessageID.isSome = true ∧ x.lastFailureReason = none :=
  C4_all_sent svcW envOkW storeW 10 (by decide) rfl rfl (fun _ => rfl)
    (fun r c => ⟨"ext-1", rfl⟩)

/-- C5: in a batch over a functioning store (distinct row ids, all status
writes succeed, no cancellation, at least one worker) in which the Delivery
Sender fails for every message, after the batch completes every fetched
message's row is 'failed' with the failure reason built from that message's
sender error text, and the Delivery Cache is never invoked. -/
theorem C5_all_failed_no_cache (svc : MessageService) (env : Env) (store : List Message)
    (limit : Nat) (hworkers : 1 ≤ svc.workerCount) (hfetch : env.fetchErr = none)
    (hcancel : env.cancelAt = none) (hupd : ∀ m, env.updateErr m = none)
    (hnodup : (store.map (fun m => m.id)).Nodup)
    (hsend : ∀ r c, ∃ e, env.webhook r c = Except.error e) :
    (∀ m ∈ getPendingMessages store limit,
      ∀ x ∈ (MessageService.fetchAndSendPending svc env store limit).store,
        x.id = m.id →
        x.status = "failed" ∧
        ∀ e, env.webhook m.recipient m.content = Except.error e →
          x.lastFailureReason = some ("webhook send failed: " ++ e)) ∧
    (∀ ev ∈ (MessageService.fetchAndSendPending svc env store limit).events,
      ev.isCacheSent = false) := by
  have hwc : ¬ svc.workerCount = 0 := by omega
  have hpend : (getPendingMessages store limit).Sublist store :=
    List.Sublist.trans (List.take_sublist _ _) (List.filter_sublist _)
  have hpnodup : ((getPendingMessages store limit).map (fun m => m.id)).Nodup :=
    List.Nodup.sublist (List.Sublist.map (fun m => m.id) hpend) hnodup
  unfold MessageService.fetchAndSendPending
  simp only [hfetch]
  by_cases hlen : (getPendingMessages store limit).length = 0
  · rw [if_pos hlen]
    refine ⟨fun m hm => ?_, fun ev hev => ?_⟩
    · rw [List.length_eq_zero.mp hlen] at hm
      simp at hm
    · simp at hev
  · rw [if_neg hlen, if_neg hwc]
    refine ⟨fun m hm x hx hid => ?_, fun ev hev => ?_⟩
    · exact (processAll_failed env hupd hcancel hsend
        (getPendingMessages store limit) store 0 hpnodup x hx).1 m hm hid
    · exact processAll_noCache env hcancel hsend
        (getPendingMessages store limit) store 0 ev hev

theorem C5_witness :
    (∀ m ∈ getPendingMessages storeW 10,
      ∀ x ∈ (MessageService.fetchAndSendPending svcW envFailW storeW 10).store,
        x.id = m.id →
        x.status = "failed" ∧
        ∀ e, envFailW.webhook m.recipient m.content = Except.error e →
          x.lastFailureReason = some ("webhook send failed: " ++ e)) ∧
    (∀ ev ∈ (MessageService.fetchAndSendPending svcW envFailW storeW 10).events,
      ev.isCacheSent = false) :=
  C5_all_failed_no_cache svcW envFailW storeW 10 (by decide) rfl rfl (fun _ => rfl)
    (by decide) (fun r c => ⟨"boom", rfl⟩)

/-- C6: Stop on a running scheduler succeeds, transitions running true to
false, and returns only once the loop goroutine has exited with no batch still
in flight (the in-flight batch is waited out before `wg.Wait` returns); Stop
on a stopped scheduler returns the NotRunning error and changes no state. -/
theorem C6_stop_blocks_until_drained (s : SchedState) :
    (s.isRunning = true →
      (SchedState.stop s).2 = Except.ok () ∧
      (SchedState.stop s).1.isRunning = false ∧
      (SchedState.stop s).1.loop = LoopState.exited ∧
      (SchedState.stop s).1.isProcessing = false) ∧
    (s.isRunning = false →
      SchedState.stop s = (s, Except.error SchedulerErr.notRunning)) := by
  constructor
  · intro h
    refine ⟨?_, ?_, ?_, ?_⟩ <;> simp [SchedState.stop, h]
  · intro h
    simp [SchedState.stop, h]

theorem C6_witness :
    ((SchedState.stop schedRunW).2 = Except.ok () ∧
     (SchedState.stop schedRunW).1.isRunning = false ∧
     (SchedState.stop schedRunW).1.loop = LoopState.exited ∧
     (SchedState.stop schedRunW).1.isProcessing = false) ∧
    SchedState.stop newSched = (newSched, Except.error SchedulerErr.notRunning) :=
  ⟨(C6_stop_blocks_until_drained schedRunW).1 rfl,
   (C6_stop_blocks_until_drained newSched).2 rfl⟩

/-- C7: Start on a stopped scheduler succeeds, transitions running false to
true and spawns the loop (the call itself returns immediately with nil); Start
on a running scheduler returns the AlreadyRunning error and leaves the whole
state unchanged. -/
theorem C7_start_semantics (s : SchedState) :
    (s.isRunning = false →
      (SchedState.start s).2 = Except.ok () ∧
      (SchedState.start s).1.isRunning = true ∧
      (SchedState.start s).1.loop = LoopState.selecting) ∧
    (s.isRunning = true →
      SchedState.start s = (s, Except.error SchedulerErr.alreadyRunning)) := by
  constructor
  · intro h
    refine ⟨?_, ?_, ?_⟩ <;> simp [SchedState.start, h]
  · intro h
    simp [SchedState.start, h]

theorem C7_witness :
    ((SchedState.start newSched).2 = Except.ok () ∧
     (SchedState.start newSched).1.isRunning = true ∧
     (SchedState.start newSched).1.loop = LoopState.selecting) ∧
    SchedState.start schedRunW = (schedRunW, Except.error SchedulerErr.alreadyRunning) :=
  ⟨(C7_start_semantics newSched).1 rfl, (C7_start_semantics schedRunW).2 rfl⟩

/-- C8: when the 'sending' claim write fails for a message, sendMessage makes
no webhook call and no further store write for it (the store is returned
unchanged, the only event is the failed claim write), and the batch continues
with the remaining queued messages. -/
theorem C8_claim_write_failure (env : Env) (store : List Message) (msg : Message)
    (rest : List Message) (idx : Nat) (e : String)
    (hcancel : env.cancelAt = none)
    (hupd : env.updateErr (msg.markAsSending env.now) = some e) :
    sendMessage env store msg =
      (store, [Event.updateStatus (msg.markAsSending env.now) false],
       Except.error ("failed to update status to sending for message " ++ msg.id ++ ": " ++ e)) ∧
    processAll env store (msg :: rest) idx =
      ((processAll env store rest (idx + 1)).1,
       Event.updateStatus (msg.markAsSending env.now) false ::
         (processAll env store rest (idx + 1)).2) := by
  have h1 := sendMessage_claim_fail env store msg hupd
  refine ⟨h1, ?_⟩
  conv_lhs => rw [processAll]
  rw [if_neg (by simp [ctxCancelled_none hcancel]), h1]
  rfl

theorem C8_witness :
    sendMessage envClaimFailW storeW msgW =
      (storeW, [Event.updateStatus (msgW.markAsSending envClaimFailW.now) false],
       Except.error ("failed to update status to sending for message " ++ msgW.id ++
         ": " ++ "db down")) ∧
    processAll envClaimFailW storeW (msgW :: []) 0 =
      ((processAll envClaimFailW storeW [] 1).1,
       Event.updateStatus (msgW.markAsSending envClaimFailW.now) false ::
         (processAll envClaimFailW storeW [] 1).2) :=
  C8_claim_write_failure envClaimFailW storeW msgW [] 0 "db down" rfl rfl

/-- C9: whenever the pending fetch succeeds, FetchAndSendPending returns nil
no matter how the per-message sends, writes or the batch deadline behave; an
error return can only arise from a failing fetch (wrapping the fetch error),
so the scheduler's deadline-exceeded classification of the engine's return can
only be triggered by a failing fetch. -/
theorem C9_engine_error_only_fetch (svc : MessageService) (env : Env) (store : List Message)
    (limit : Nat) :
    (env.fetchErr = none →
      (MessageService.fetchAndSendPending svc env store limit).ret = Except.ok ()) ∧
    (∀ e, (MessageService.fetchAndSendPending svc env store limit).ret = Except.error e →
      ∃ e0, env.fetchErr = some e0 ∧ e = "failed to get pending messages: " ++ e0) := by
  constructor
  · intro h
    unfold MessageService.fetchAndSendPending
    simp only [h]
    split <;> rfl
  · intro e he
    cases hf : env.fetchErr with
    | none =>
        unfold MessageService.fetchAndSendPending at he
        simp only [hf] at he
        split at he <;> exact absurd he (by simp)
    | some e0 =>
        unfold MessageService.fetchAndSendPending at he
        simp only [hf] at he
        refine ⟨e0, rfl, ?_⟩
        injection he with h2
        exact h2.symm

theorem C9_witness :
    (MessageService.fetchAndSendPending svcW envOkW storeW 10).ret = Except.ok () :=
  (C9_engine_error_only_fetch svcW envOkW storeW 10).1 rfl

/-- C10: after any successful Stop, a subsequent Start succeeds, remakes the
stop channel (fresh generation, not closed) and spawns a fresh loop. -/
theorem C10_restartable (s : SchedState) (h : s.isRunning = true) :
    (SchedState.stop s).2 = Except.ok () ∧
    (SchedState.start (SchedState.stop s).1).2 = Except.ok () ∧
    (SchedState.start (SchedState.stop s).1).1.loop = LoopState.selecting ∧
    (SchedState.start (SchedState.stop s).1).1.stopGen = s.stopGen + 1 ∧
    (SchedState.start (SchedState.stop s).1).1.stopClosed = false := by
  refine ⟨?_, ?_, ?_, ?_, ?_⟩ <;> simp [SchedState.stop, SchedState.start, h]

theorem C10_witness :
    (SchedState.stop schedRunW).2 = Except.ok () ∧
    (SchedState.start (SchedState.stop schedRunW).1).2 = Except.ok () ∧
    (SchedState.start (SchedState.stop schedRunW).1).1.loop = LoopState.selecting ∧
    (SchedState.start (SchedState.stop schedRunW).1).1.stopGen = schedRunW.stopGen + 1 ∧
    (SchedState.start (SchedState.stop schedRunW).1).1.stopClosed = false :=
  C10_restartable schedRunW rfl

end GoNotify
